import Mathlib

/-!
Shallow embedding of the rnaseq-agent core (src/database.py, src/tools.py,
src/plotter.py, src/utils.py, src/agent.py) and proofs about it.

Modelling conventions:
* Python strings are Lean `String`s; the Python operations used by the code
  (`upper`, `lower`, `strip`, `split`, substring `in`) are re-implemented over
  the underlying character lists so that they reduce in the kernel.
* The SQLite store is an oracle `Store : String → Except String (List Row × List String)`
  standing for `cursor.execute(q)` followed by `fetchall`: an exception becomes
  `Except.error` carrying the exception text.
* Machine time is an `Int` clock in seconds; `datetime.now()` at a given point
  is a parameter of the function embedding the call.  Filename timestamps
  (`strftime`) are modelled by the decimal rendering of the clock.
* Numbers stored in the database / parsed by `pd.to_numeric` are exact decimals
  `Dec` (mantissa · 10^(-exp)); `pd.to_numeric(·, errors='coerce')` returning
  NaN is modelled by `Option.none` (NaN compares false under `<`, and `none`
  is mapped to the same branch the code takes on NaN).
* File writes are explicit: each tool returns the list of files it wrote.
-/

/-- Python `str.upper` (character-wise, as `query.upper()` in database.py). -/
def pyUpper (s : String) : String := ⟨s.data.map Char.toUpper⟩

/-- Python `str.lower`. -/
def pyLower (s : String) : String := ⟨s.data.map Char.toLower⟩

/-- List prefix test over characters. -/
def listIsPre : List Char → List Char → Bool
  | [], _ => true
  | _ :: _, [] => false
  | a :: as, b :: bs => a == b && listIsPre as bs

/-- Substring occurrence test over characters (helper for Python `in`). -/
def listSub (needle : List Char) : List Char → Bool
  | [] => needle.isEmpty
  | b :: bs => listIsPre needle (b :: bs) || listSub needle bs

/-- Python substring containment `needle in hay`. -/
def pyIn (needle hay : String) : Bool := listSub needle.data hay.data

/-- Python whitespace for `str.strip`. -/
def pySpace (c : Char) : Bool := c == ' ' || c == '\t' || c == '\n' || c == '\r'

/-- Python `str.strip()`. -/
def pyStrip (s : String) : String :=
  ⟨((s.data.dropWhile pySpace).reverse.dropWhile pySpace).reverse⟩

/-- Python `str.split(sep)` for a one-character separator, over characters.
`"".split(sep)` is `[""]`, so the result is never empty. -/
def pySplitChars (sep : Char) : List Char → List (List Char)
  | [] => [[]]
  | c :: cs =>
    let r := pySplitChars sep cs
    if c == sep then [] :: r
    else
      match r with
      | [] => [[c]]
      | h :: t => (c :: h) :: t

/-- Python `str.split(sep)` for a one-character separator. -/
def pySplit (sep : Char) (s : String) : List String :=
  (pySplitChars sep s.data).map (fun cs => ⟨cs⟩)

/-- Python `str.split(sep, 1)`: split at the first occurrence only. -/
def pySplitOnceChars (sep : Char) : List Char → Option (List Char × List Char)
  | [] => none
  | c :: cs =>
    if c == sep then some ([], cs)
    else (pySplitOnceChars sep cs).map (fun p => (c :: p.1, p.2))

/-- String join with a separator (Python `sep.join`). -/
def joinSep (sep : String) : List String → String
  | [] => ""
  | [x] => x
  | x :: xs => x ++ sep ++ joinSep sep xs

/-- Concatenation of a list of strings. -/
def joinAll : List String → String
  | [] => ""
  | x :: xs => x ++ joinAll xs

/-- Exact decimal number `mant · 10^(-exp)`, the value domain of
`pd.to_numeric` as used by the volcano branch. -/
structure Dec where
  mant : Int
  exp : Nat
deriving DecidableEq, Repr

/-- Rational value of a decimal. -/
def Dec.toRat (d : Dec) : ℚ := (d.mant : ℚ) / (10 : ℚ) ^ d.exp

/-- Decidable strict comparison of decimals by cross-multiplication. -/
def Dec.blt (a b : Dec) : Bool := a.mant * (10 : Int) ^ b.exp < b.mant * (10 : Int) ^ a.exp

theorem Dec.blt_iff_toRat (a b : Dec) : a.blt b = true ↔ a.toRat < b.toRat := by
  unfold Dec.blt Dec.toRat
  rw [div_lt_div_iff₀ (by positivity) (by positivity), decide_eq_true_eq]
  constructor
  · intro h
    exact_mod_cast h
  · intro h
    exact_mod_cast h

/-- A cell value: a number, a string, or SQL NULL / Python `None`. -/
inductive Value where
  | num (d : Dec)
  | str (s : String)
  | null
deriving DecidableEq, Repr

/-- Digit run accumulator for the decimal reader. -/
def readDigitsAux : List Char → Nat → Option Nat
  | [], acc => some acc
  | c :: cs, acc =>
    if c.isDigit then readDigitsAux cs (acc * 10 + (c.toNat - 48)) else none

/-- Reads a (possibly empty) digit run as a natural number. -/
def readDigits (cs : List Char) : Option Nat := readDigitsAux cs 0

/-- Numeric coercion of a string, as `pd.to_numeric(·, errors='coerce')`
does on plain decimal literals with optional sign and fraction
(exponent notation is out of scope for this embedding); failure is NaN. -/
def pdStrToNumeric (s : String) : Option Dec :=
  let cs := (pyStrip s).data
  let signed : Int × List Char :=
    match cs with
    | '-' :: r => (-1, r)
    | '+' :: r => (1, r)
    | r => (1, r)
  match pySplitChars '.' signed.2 with
  | [ip] =>
    if ip.isEmpty then none
    else (readDigits ip).map (fun n => ⟨signed.1 * n, 0⟩)
  | [ip, fp] =>
    if ip.isEmpty && fp.isEmpty then none
    else
      match readDigits ip, readDigits fp with
      | some a, some b => some ⟨signed.1 * (a * 10 ^ fp.length + b), fp.length⟩
      | _, _ => none
  | _ => none

/-- `pd.to_numeric(·, errors='coerce')` on a cell value; `none` is NaN. -/
def pdToNumeric : Value → Option Dec
  | .num d => some d
  | .str s => pdStrToNumeric s
  | .null => none

/-- One result row: a mapping from column name to value (a Python dict,
keys unique, insertion-ordered). -/
abbrev Row := List (String × Value)

/-- Python `row.get(col)`: `None` (here `Value.null`) when the key is absent. -/
def rowGet (r : Row) (k : String) : Value := (List.lookup k r).getD .null

/-- Dict update `d[k] = v`: overwrite in place, else append. -/
def rowSet (r : Row) (k : String) (v : Value) : Row :=
  if (r.map Prod.fst).contains k then
    r.map (fun p => if p.1 == k then (k, v) else p)
  else r ++ [(k, v)]

/-- A pandas DataFrame built from a list of dict rows: the column list is
the union of keys in first-appearance order. -/
structure DF where
  cols : List String
  rows : List Row
deriving DecidableEq, Repr

/-- Column-union accumulator for `pd.DataFrame(list_of_dicts)`. -/
def insertCol (acc : List String) (c : String) : List String :=
  if acc.contains c then acc else acc ++ [c]

/-- Column list of `pd.DataFrame(rows)`. -/
def dfCols (rows : List Row) : List String :=
  rows.foldl (fun acc r => (r.map Prod.fst).foldl insertCol acc) []

/-- `pd.DataFrame(rows)` for a list of dict rows. -/
def pdDataFrame (rows : List Row) : DF := ⟨dfCols rows, rows⟩

/-- `df.empty`: true when either axis has length zero. -/
def DF.isEmptyDF (df : DF) : Bool := df.rows.isEmpty || df.cols.isEmpty

/-! ## Query Gateway (src/database.py, `RNAseqDatabase`) -/

/-- Oracle for `cursor.execute(q)` + fetch on the SQLite store: rows plus
the cursor's column names on success, the exception text on failure. -/
abbrev Store := String → Except String (List Row × List String)

/-- The textual denylist of `RNAseqDatabase.execute_query`. -/
def dangerous_keywords : List String :=
  ["DROP", "DELETE", "INSERT", "UPDATE", "ALTER", "CREATE"]

/-- The guard `any(keyword in query.upper() for keyword in dangerous_keywords)`. -/
def hasDangerousKeyword (query : String) : Bool :=
  dangerous_keywords.any (fun kw => pyIn kw (pyUpper query))

/-- Successful query outcome: rows, column names; `row_count` is `data.length`. -/
structure QueryOk where
  data : List Row
  columns : List String
deriving DecidableEq, Repr

/-- Embedding of `RNAseqDatabase.execute_query`.  `connected` models
`self.connection or self.connect()` (the reconnect-once-on-use policy);
when it is false the method returns the connection-failure error before
looking at the query. -/
def execute_query (connected : Bool) (store : Store) (query : String) :
    Except String QueryOk :=
  if !connected then .error "Database connection failed"
  else if hasDangerousKeyword query then .error "Only SELECT queries are allowed"
  else
    match store query with
    | .ok (rows, cols) => .ok ⟨rows, cols⟩
    | .error e => .error ("Query execution failed: " ++ e)

/-- A column descriptor from `PRAGMA table_info`: name and declared type. -/
abbrev ColInfo := String × String

/-- Oracle for the raw `cursor.execute(f"PRAGMA table_info({table});")` used
by `get_table_info` (unlike `execute_query`, exceptions propagate here). -/
abbrev PragmaStore := String → Except String (List ColInfo)

/-- Per-table entry of `get_table_info`. -/
structure TableInfo where
  columns : List ColInfo
  sample_query : String
deriving DecidableEq, Repr

/-- The `for table in tables` loop of `get_table_info`: the first raised
`PRAGMA` aborts the whole loop with that exception. -/
def collect_table_info (pragmaEx : PragmaStore) :
    List String → Except String (List (String × TableInfo))
  | [] => .ok []
  | t :: ts =>
    match pragmaEx t with
    | .error e => .error e
    | .ok cols =>
      match collect_table_info pragmaEx ts with
      | .error e => .error e
      | .ok rest => .ok ((t, ⟨cols, "SELECT * FROM " ++ t ++ " LIMIT 5;"⟩) :: rest)

/-- Embedding of `RNAseqDatabase.get_table_info`: one `try` wraps the whole
loop over tables, so a raised `PRAGMA` aborts the aggregate with an error.
`tables` is the result of `get_table_names` (which returns `[]` on failure). -/
def get_table_info (connected : Bool) (tables : List String)
    (pragmaEx : PragmaStore) : Except String (List (String × TableInfo)) :=
  if !connected then .error "Database connection failed"
  else
    match collect_table_info pragmaEx tables with
    | .ok info => .ok info
    | .error e => .error ("Failed to get table info: " ++ e)

/-! ## Result Cache (src/tools.py, `LAST_QUERY_DATA` / `store_query_data`) -/

/-- The filled cache slot: rows, originating query, store-time timestamp.
`store_query_data` always writes the three fields together, so the process
global `LAST_QUERY_DATA` is modelled as `Option Slot` (`none` is the initial
`{"data": None, ..., "timestamp": None}` state). -/
structure Slot where
  data : List Row
  query_info : String
  timestamp : Int
deriving DecidableEq, Repr

abbrev Cache := Option Slot

/-- Embedding of `store_query_data`: overwrites the whole slot and stamps
`datetime.now()` (the `now` argument). -/
def store_query_data (data : List Row) (query_info : String) (now : Int) : Cache :=
  some ⟨data, query_info, now⟩

/-! ## SQL query tool (src/tools.py, `sql_query_tool`) -/

/-- Rendering of a cell for the tabular preview, `str(row.get(col, ""))`. -/
def pyStr : Value → String
  | .num d => toString d.mant ++ (if d.exp == 0 then "" else "e-" ++ toString d.exp)
  | .str s => s
  | .null => "None"

/-- One preview line of the result table. -/
def formatRow (columns : List String) (r : Row) : String :=
  joinSep " | " (columns.map (fun c =>
    match List.lookup c r with
    | some v => pyStr v
    | none => ""))

/-- Embedding of `sql_query_tool` (the tools.py variant): executes the query,
returns the observation string, and caches the rows via `store_query_data`
exactly when the execution succeeded with `row_count > 0`.  `now` is the
clock when `store_query_data` stamps the slot. -/
def sql_query_tool (connected : Bool) (store : Store) (query : String)
    (cache : Cache) (now : Int) : String × Cache :=
  match execute_query connected store query with
  | .error e =>
    let base := "Query failed: " ++ e ++ "\n"
    let msg :=
      if pyIn "no such table" (pyLower e) then
        base ++ "RECOMMENDATION: Use Database_Schema tool first to understand the data structure, then use Sample_Column_Values tool to see actual data values before writing queries."
      else base
    (msg, cache)
  | .ok r =>
    let cache' := if r.data.length > 0 then store_query_data r.data query now else cache
    let header := "Query returned " ++ toString r.data.length ++ " rows. " ++
      (if r.data.length > 15 then "Showing first 15 rows:\n" else "Here are all the results:\n")
    let body :=
      if r.data.isEmpty then ""
      else
        let colLine := joinSep " | " r.columns
        "\n" ++ colLine ++ "\n" ++ ⟨List.replicate colLine.length '-'⟩ ++ "\n" ++
        joinAll ((r.data.take 15).map (fun row => formatRow r.columns row ++ "\n")) ++
        "\nThis is the actual data from the database. Use this to answer the user's question."
    (header ++ body, cache')

/-! ## Report Exporter (src/tools.py, `create_csv_report_tool`) -/

/-- Result now of the CSV report tool, one constructor per return site. -/
inductive CsvOut where
  | noData
  | stale
  | ok (filename : String)
  | failed (e : String)
deriving DecidableEq, Repr

/-- Embedding of `create_csv_report_tool`.  `toCsv` is the oracle for
`df.to_csv` (file-system effects); the middle component lists files written;
the last component mirrors the cache global, which the tool never assigns. -/
def create_csv_report_tool (cache : Cache) (now : Int)
    (toCsv : Except String Unit) : CsvOut × List String × Cache :=
  match cache with
  | none => (.noData, [], none)
  | some slot =>
    if slot.data.isEmpty then (.noData, [], some slot)
    else if now - slot.timestamp > 120 then (.stale, [], some slot)
    else
      match toCsv with
      | .ok _ =>
        let fn := "report_" ++ toString now ++ ".csv"
        (.ok fn, [fn], some slot)
      | .error e => (.failed e, [], some slot)

/-! ## Chart Renderer (src/tools.py, `create_plot_tool` and helpers) -/

/-- Result of the plot tool, one constructor per distinct return site. -/
inductive PlotOut where
  | noData
  | stale
  | invalidFormat
  | notAllowed (plot_type : String)
  | emptyData
  | missingCols (missing : List String) (available : List String)
  | createFailed (plot_type : String)
  | saveFailed
  | ok (filename : String)
deriving DecidableEq, Repr

/-- Dict insertion `d[k] = v` preserving insertion order. -/
def dictSet (d : List (String × String)) (k v : String) : List (String × String) :=
  if (d.map Prod.fst).contains k then
    d.map (fun p => if p.1 == k then (k, v) else p)
  else d ++ [(k, v)]

/-- Parameter parsing of `create_plot_tool`: for each `|`-segment containing
`=`, split at the first `=` and store the stripped key/value pair. -/
def plot_params_of (parts : List String) : List (String × String) :=
  parts.foldl (fun d p =>
    if pyIn "=" p then
      match pySplitOnceChars '=' p.data with
      | some (k, v) => dictSet d (pyStrip ⟨k⟩) (pyStrip ⟨v⟩)
      | none => d
    else d) []

/-- Embedding of `_get_required_columns`: the per-type required column list
(entries may be `none` when the parameter is absent). -/
def get_required_columns (plot_type : String) (plot_params : List (String × String)) :
    List (Option String) :=
  if plot_type == "heatmap" then []
  else if ["scatter", "pca", "volcano", "bar", "enrichment", "dot"].contains plot_type then
    [List.lookup "x_column" plot_params, List.lookup "y_column" plot_params]
  else []

/-- What a `plotly.express` call receives: the (possibly derived) frame and
the encodings.  Plotly construction itself is outside the repository; the
embedding captures the arguments the repository computes for it. -/
structure Fig where
  frame : DF
  x : Option String
  y : Option String
  color : Option String
  size : Option String
  title : String
deriving DecidableEq, Repr

/-- Optional-column parameter resolution: `params.get(k)` if it differs from
the literal string `'None'`, else `None`. -/
def optColParam (plot_params : List (String × String)) (k : String) : Option String :=
  match List.lookup k plot_params with
  | some v => if v == "None" then none else some v
  | none => none

/-- The hard-coded volcano significance label: `'Significant'` iff the value
coerces to a number strictly below 0.05. -/
def volcanoLabel (v : Value) : String :=
  match pdToNumeric v with
  | some d => if d.blt ⟨5, 2⟩ then "Significant" else "Not Significant"
  | none => "Not Significant"

/-- Numeric coercion of a whole row over the given columns (heatmap branch). -/
def coerceRowNumeric (cols : List String) (r : Row) : Row :=
  cols.map (fun c =>
    (c, match pdToNumeric (rowGet r c) with
        | some d => Value.num d
        | none => Value.null))

/-- Embedding of `_create_plot`: the per-type figure construction.  `none` is
the `return None` taken when the branch raises (caught inside `_create_plot`);
for the volcano branch the raise modelled is the `KeyError` of
`df_copy[y_col]` when the y column is absent or the parameter missing.
Plotly's own construction is modelled as argument capture. -/
def createPlotFig (plot_type : String) (df : DF)
    (plot_params : List (String × String)) : Option Fig :=
  if plot_type == "scatter" then
    some ⟨df, List.lookup "x_column" plot_params, List.lookup "y_column" plot_params,
      optColParam plot_params "color_column", optColParam plot_params "size_column",
      (List.lookup "title" plot_params).getD "Scatter Plot"⟩
  else if plot_type == "pca" then
    some ⟨df, List.lookup "x_column" plot_params, List.lookup "y_column" plot_params,
      optColParam plot_params "color_column", optColParam plot_params "size_column",
      (List.lookup "title" plot_params).getD "PCA Plot"⟩
  else if plot_type == "volcano" then
    match List.lookup "y_column" plot_params with
    | none => none
    | some y =>
      if df.cols.contains y then
        some ⟨⟨if df.cols.contains "significant" then df.cols else df.cols ++ ["significant"],
               df.rows.map (fun r => rowSet r "significant" (.str (volcanoLabel (rowGet r y))))⟩,
          List.lookup "x_column" plot_params, some y, some "significant", none,
          (List.lookup "title" plot_params).getD "Volcano Plot"⟩
      else none
  else if plot_type == "heatmap" then
    match df.cols with
    | [] => none
    | c0 :: rest =>
      some ⟨⟨c0 :: rest, df.rows.map (fun r => (c0, rowGet r c0) :: coerceRowNumeric rest r)⟩,
        none, none, none, none, (List.lookup "title" plot_params).getD "Heatmap"⟩
  else if plot_type == "bar" then
    some ⟨df, List.lookup "x_column" plot_params, List.lookup "y_column" plot_params,
      optColParam plot_params "color_column", none,
      (List.lookup "title" plot_params).getD "Bar Plot"⟩
  else if plot_type == "enrichment" then
    some ⟨df, List.lookup "x_column" plot_params, List.lookup "y_column" plot_params,
      optColParam plot_params "color_column", none,
      (List.lookup "title" plot_params).getD "Enrichment Plot"⟩
  else if plot_type == "dot" then
    some ⟨df, List.lookup "x_column" plot_params, List.lookup "y_column" plot_params,
      optColParam plot_params "color_column", optColParam plot_params "size_column",
      (List.lookup "title" plot_params).getD "Dot Plot"⟩
  else none

/-- Embedding of `create_plot_tool` (the tools.py variant).  `allowed` is
`ALLOWED_PLOTS` (loaded from the config file, which is outside src/, so it is
a parameter); `saveOk` is the oracle for `_save_plot`'s file write; the middle
component lists written files; the last component mirrors the cache global,
which the tool never assigns. -/
def create_plot_tool (allowed : List String) (cache : Cache) (now : Int)
    (saveOk : Bool) (plot_request : String) : PlotOut × List String × Cache :=
  match cache with
  | none => (.noData, [], none)
  | some slot =>
    if slot.data.isEmpty then (.noData, [], some slot)
    else if now - slot.timestamp > 120 then (.stale, [], some slot)
    else
      match pySplit '|' plot_request with
      | [] => (.invalidFormat, [], some slot)
      | p0 :: rest =>
        let plot_type := pyLower (pyStrip p0)
        let plot_params := plot_params_of rest
        if !allowed.contains plot_type then (.notAllowed plot_type, [], some slot)
        else
          let df := pdDataFrame slot.data
          if df.isEmptyDF then (.emptyData, [], some slot)
          else
            let required := get_required_columns plot_type plot_params
            let missing := required.filterMap (fun o =>
              match o with
              | some c => if c ≠ "" && !df.cols.contains c then some c else none
              | none => none)
            if !missing.isEmpty then (.missingCols missing df.cols, [], some slot)
            else
              match createPlotFig plot_type df plot_params with
              | none => (.createFailed plot_type, [], some slot)
              | some _ =>
                if saveOk then
                  let fn := plot_type ++ "_" ++ toString now ++ ".html"
                  (.ok fn, [fn], some slot)
                else (.saveFailed, [], some slot)

/-! ## Chart Renderer, agent variant (src/plotter.py, `RNAseqPlotter.create_plot`)

The agent wired by src/main.py uses this plotter-based `Create_Plot` tool
(src/agent.py `plot_tool`), not the tools.py variant above. -/

/-- The plotter's own slot `self.last_query_data` (set by
`RNAseqPlotter.store_query_data`: data, `datetime.now()`, query text). -/
structure PlotterSlot where
  data : List Row
  timestamp : Int
  query_info : String
deriving DecidableEq, Repr

/-- Result of `RNAseqPlotter.create_plot`, one constructor per return site. -/
inductive PlotterOut where
  | errNoData
  | errNotAllowed (plot_type : String)
  | errGen (e : String)
  | ok (filename : String)
deriving DecidableEq, Repr

/-- Embedding of `RNAseqPlotter.create_plot`.  The LLM parameter selection,
template fill and `exec` of the generated plotting code are external effects
(the templates live in a config file outside src/ and the LLM is an external
capability); they are modelled by the `render` oracle, whose success stands
for the generated code completing and writing `plot_filename`.  Note the
method reads only `slot.data`, never `slot.timestamp`: it has no staleness
check. -/
def RNAseqPlotter.create_plot (slot? : Option PlotterSlot) (allowed_plots : List String)
    (render : Except String Unit) (plot_type : String) (now : Int) :
    PlotterOut × List String :=
  match slot? with
  | none => (.errNoData, [])
  | some slot =>
    if slot.data.isEmpty then (.errNoData, [])
    else if !allowed_plots.contains plot_type then (.errNotAllowed plot_type, [])
    else
      match render with
      | .ok _ =>
        let fn := "plots/" ++ plot_type ++ "_" ++ toString now ++ ".html"
        (.ok fn, [fn])
      | .error e => (.errGen ("Plot generation failed: " ++ e), [])

/-! ## Schema/Value Introspection (src/tools.py, `sample_column_values_tool`) -/

/-- Per-table body of `sample_column_values_tool`: a failing `PRAGMA`
(`info_result.get("error")`) skips the table (`continue`); a failing or empty
`SELECT DISTINCT` skips the column.  Pragma rows are dicts with `name` and
`type` keys; only text-typed columns are sampled. -/
def sample_values_for_table (connected : Bool) (store : Store) (table : String) :
    List (String × List Value) :=
  match execute_query connected store ("PRAGMA table_info('" ++ table ++ "');") with
  | .error _ => []
  | .ok info =>
    let text_columns := info.data.filterMap (fun r =>
      match List.lookup "name" r, List.lookup "type" r with
      | some (Value.str n), some (Value.str ty) =>
        if pyIn "text" (pyLower ty) then some n else none
      | _, _ => none)
    text_columns.filterMap (fun col =>
      match execute_query connected store
          ("SELECT DISTINCT \"" ++ col ++ "\" FROM \"" ++ table ++ "\" LIMIT 5;") with
      | .ok vres =>
        if vres.data.isEmpty then none
        else some (table ++ "." ++ col, vres.data.map (fun d => (List.lookup col d).getD .null))
      | .error _ => none)

/-- The `all_sample_values` accumulation of `sample_column_values_tool`:
tables are processed independently, in order. -/
def sample_column_values_core (connected : Bool) (store : Store)
    (tables : List String) : List (String × List Value) :=
  (tables.map (sample_values_for_table connected store)).flatten

/-- Embedding of `sample_column_values_tool` (tools.py variant).  `tables` is
the result of `db.get_table_names()` (empty on failure). -/
def sample_column_values_tool (connected : Bool) (store : Store)
    (tables : List String) : String :=
  if tables.isEmpty then "Error: Could not retrieve table names."
  else
    let vals := sample_column_values_core connected store tables
    if vals.isEmpty then "Could not find any text columns with sample values."
    else
      "Here are a few sample values from key text columns:\n" ++
      joinAll (vals.map (fun p =>
        "- " ++ p.1 ++ ": " ++ joinSep ", " (p.2.map pyStr) ++ "\n"))

/-! ## Orchestration retry loop (src/utils.py, `invoke_with_retry`) -/

/-- The shape of a normal agent response (the keys the code reads). -/
structure AgentResult where
  output : String
  intermediate_steps : List String
deriving DecidableEq, Repr

/-- The rate-limit test of `invoke_with_retry`:
`"429" in str(e).lower() or "rate limit" in ... or "capacity" in ...`. -/
def isRateLimitSignal (e : String) : Bool :=
  pyIn "429" (pyLower e) || pyIn "rate limit" (pyLower e) || pyIn "capacity" (pyLower e)

/-- The degraded answer returned after exhausting all retries. -/
def capacityFallback : AgentResult :=
  ⟨"Gemini is currently at capacity. Please try again in a few minutes or contact us.", []⟩

/-- The per-attempt sleep `min(2 ** attempt + random.uniform(0, 1), 30)`;
the jitter for each attempt is an oracle argument. -/
def backoffDelay (attempt : Nat) (jitter : ℚ) : ℚ := min ((2 : ℚ) ^ attempt + jitter) 30

/-- Loop body of `invoke_with_retry` over the remaining attempt indices
(`range(max_retries)`).  The first component is the outcome (`.ok` a returned
response — possibly the degraded fallback — and `.error` a re-raised
exception; `none` is Python's implicit `None` when the loop falls through,
unreachable for `max_retries ≥ 1`).  The second component is the list of
sleeps performed, in order. -/
def invoke_with_retry_go (agent : Nat → Except String AgentResult) (jitter : Nat → ℚ)
    (max_retries : Nat) : List Nat → Option (Except String AgentResult) × List ℚ
  | [] => (none, [])
  | a :: rest =>
    match agent a with
    | .ok r => (some (.ok r), [])
    | .error e =>
      if isRateLimitSignal e then
        if a < max_retries - 1 then
          let res := invoke_with_retry_go agent jitter max_retries rest
          (res.1, backoffDelay a (jitter a) :: res.2)
        else (some (.ok capacityFallback), [])
      else (some (.error e), [])

/-- Embedding of `invoke_with_retry`: `agent k` is the outcome of the k-th
`agent.invoke(input_dict)` attempt, `jitter k` the k-th draw of
`random.uniform(0, 1)`. -/
def invoke_with_retry (agent : Nat → Except String AgentResult) (jitter : Nat → ℚ)
    (max_retries : Nat) : Option (Except String AgentResult) × List ℚ :=
  invoke_with_retry_go agent jitter max_retries (List.range max_retries)

/-! ## Helper lemmas -/

theorem isEmpty_false_of_ne_nil {α : Type} {l : List α} (h : l ≠ []) : l.isEmpty = false := by
  cases l with
  | nil => exact absurd rfl h
  | cons a l => rfl

/-! ## Claims -/

/-- C1: for every SQL input string whose uppercased text contains a denylisted
keyword (DROP, DELETE, INSERT, UPDATE, ALTER, CREATE, as a substring anywhere),
`execute_query` on a live connection returns the rejection error
"Only SELECT queries are allowed", and (for any connection state) the result is
independent of the store, i.e. nothing is executed against it. -/
theorem execute_query_rejects_denylisted (q : String)
    (h : hasDangerousKeyword q = true) (store store' : Store) (c : Bool) :
    execute_query true store q = Except.error "Only SELECT queries are allowed" ∧
    execute_query c store q = execute_query c store' q := by
  constructor
  · simp [execute_query, h]
  · cases c <;> simp [execute_query, h]

/-- Witness for C1 at the concrete input "DROP TABLE genes". -/
theorem execute_query_rejects_denylisted_witness :
    hasDangerousKeyword "DROP TABLE genes" = true ∧
    (execute_query true (fun _ => Except.ok ([], [])) "DROP TABLE genes" =
        Except.error "Only SELECT queries are allowed" ∧
      execute_query true (fun _ => Except.ok ([], [])) "DROP TABLE genes" =
        execute_query true (fun _ => Except.error "x") "DROP TABLE genes") :=
  ⟨by decide, execute_query_rejects_denylisted "DROP TABLE genes" (by decide) _ _ true⟩

/-- C5 counterexample: `SELECT created_at FROM samples` is a single SELECT
statement, yet the gateway rejects it — its uppercase contains the denylisted
substring CREATE inside the column name — even against a store that would have
returned a row for it. -/
theorem select_created_at_rejected :
    execute_query true
      (fun _ => Except.ok ([[("created_at", Value.str "2024-01-01")]], ["created_at"]))
      "SELECT created_at FROM samples" = Except.error "Only SELECT queries are allowed" := rfl

/-- C5 (amended): the gateway accepts exactly the strings whose uppercased
text contains no denylisted keyword; every such string is executed against the
store and the store's outcome is returned (success wrapped as a result,
failure wrapped as "Query execution failed: ..."). -/
theorem execute_query_accepts_safe (q : String) (h : hasDangerousKeyword q = false)
    (store : Store) :
    execute_query true store q =
      (match store q with
       | .ok (rows, cols) => Except.ok ⟨rows, cols⟩
       | .error e => Except.error ("Query execution failed: " ++ e)) := by
  simp [execute_query, h]

/-- Witness for the amended C5 at a concrete accepted query. -/
theorem execute_query_accepts_safe_witness :
    hasDangerousKeyword "SELECT gene FROM deseq2" = false ∧
    execute_query true (fun _ => Except.ok ([[("gene", Value.str "TP53")]], ["gene"]))
        "SELECT gene FROM deseq2" =
      Except.ok ⟨[[("gene", Value.str "TP53")]], ["gene"]⟩ :=
  ⟨by decide,
    execute_query_accepts_safe "SELECT gene FROM deseq2" (by decide)
      (fun _ => Except.ok ([[("gene", Value.str "TP53")]], ["gene"]))⟩

/-- C2 counterexample: the Create_Plot path actually wired by src/main.py
(src/agent.py `plot_tool` → `RNAseqPlotter.create_plot`) has no staleness
check: with a cache slot stamped at time 0 and the call at time 1000 (age
1000 s > 120 s) it renders and writes the plot file instead of returning a
stale-data error. -/
theorem plotter_create_plot_renders_stale_data :
    RNAseqPlotter.create_plot (some ⟨[[("gene", Value.str "TP53")]], 0, "q"⟩) ["volcano"]
      (.ok ()) "volcano" 1000 =
    (.ok "plots/volcano_1000.html", ["plots/volcano_1000.html"]) := by decide

/-- C2 (amended): in the tools.py tool set, every CreateReport or CreatePlot
call issued when the cache slot is non-empty and `now - timestamp > 120`
returns the stale-data error and writes no file (the plotter-based variant
performs no such check, see the counterexample). -/
theorem stale_cache_rejected (slot : Slot) (now : Int) (toCsv : Except String Unit)
    (allowed : List String) (saveOk : Bool) (req : String)
    (hdata : slot.data ≠ []) (hstale : now - slot.timestamp > 120) :
    create_csv_report_tool (some slot) now toCsv = (.stale, [], some slot) ∧
    create_plot_tool allowed (some slot) now saveOk req = (.stale, [], some slot) := by
  have hd : slot.data.isEmpty = false := isEmpty_false_of_ne_nil hdata
  constructor
  · simp [create_csv_report_tool, hd, hstale]
  · simp [create_plot_tool, hd, hstale]

/-- Witness for the amended C2 at a concrete stale slot. -/
theorem stale_cache_rejected_witness :
    (([[("a", Value.null)]] : List Row) ≠ []) ∧ ((121 : Int) - 0 > 120) ∧
    (create_csv_report_tool (some ⟨[[("a", Value.null)]], "q", 0⟩) 121 (.ok ()) =
        (.stale, [], some ⟨[[("a", Value.null)]], "q", 0⟩) ∧
      create_plot_tool ["volcano"] (some ⟨[[("a", Value.null)]], "q", 0⟩) 121 true
          "volcano|y_column=a" =
        (.stale, [], some ⟨[[("a", Value.null)]], "q", 0⟩)) :=
  ⟨by decide, by decide,
    stale_cache_rejected ⟨[[("a", Value.null)]], "q", 0⟩ 121 (.ok ()) ["volcano"] true
      "volcano|y_column=a" (by decide) (by decide)⟩

/-- C3: every query execution that succeeds with at least one row overwrites
the cache slot with exactly that execution's rows, the originating query and
the store-time clock `now`; the result is the same for every prior cache value
(full replacement, never a merge), and — given clock monotonicity
`start ≤ now` — the written timestamp is ≥ the call's start time. -/
theorem sql_query_tool_overwrites_cache (store : Store) (q : String) (now start : Int)
    (rows : List Row) (cols : List String)
    (hexec : execute_query true store q = .ok ⟨rows, cols⟩) (hne : rows ≠ [])
    (hclock : start ≤ now) :
    (∀ cachePrior : Cache,
        (sql_query_tool true store q cachePrior now).2 = some ⟨rows, q, now⟩) ∧
    start ≤ (Slot.mk rows q now).timestamp := by
  refine ⟨fun cachePrior => ?_, hclock⟩
  have hlen : rows.length > 0 := List.length_pos.mpr hne
  simp [sql_query_tool, hexec, hlen, store_query_data]

/-- Witness for C3 at a concrete one-row query, replacing a distinct prior slot. -/
theorem sql_query_tool_overwrites_cache_witness :
    (execute_query true (fun _ => Except.ok ([[("g", Value.str "x")]], ["g"]))
        "SELECT g FROM t" = Except.ok ⟨[[("g", Value.str "x")]], ["g"]⟩) ∧
    (([[("g", Value.str "x")]] : List Row) ≠ []) ∧ ((0 : Int) ≤ 7) ∧
    (sql_query_tool true (fun _ => Except.ok ([[("g", Value.str "x")]], ["g"]))
        "SELECT g FROM t" (some ⟨[[("old", Value.null)]], "old query", 3⟩) 7).2 =
      some ⟨[[("g", Value.str "x")]], "SELECT g FROM t", 7⟩ :=
  ⟨rfl, by decide, by decide,
    (sql_query_tool_overwrites_cache (fun _ => Except.ok ([[("g", Value.str "x")]], ["g"]))
      "SELECT g FROM t" 7 0 [[("g", Value.str "x")]] ["g"] rfl (by decide)
      (by decide)).1 (some ⟨[[("old", Value.null)]], "old query", 3⟩)⟩

/-- C4 counterexample: a CreatePlot call with the un-allow-listed chart type
"mosaic" does not return the unknown-chart-type error when the cache is empty
(it returns the no-data error) or stale (it returns the stale-data error): the
cache checks run first, so the tool does read the cache state before the
allow-list check. -/
theorem create_plot_unknown_type_reads_cache_first :
    create_plot_tool ["scatter", "pca", "volcano", "heatmap", "bar", "enrichment", "dot"]
        none 0 true "mosaic|x_column=a" = (.noData, [], none) ∧
    create_plot_tool ["scatter", "pca", "volcano", "heatmap", "bar", "enrichment", "dot"]
        (some ⟨[[("a", Value.null)]], "q", 0⟩) 1000 true "mosaic|x_column=a" =
      (.stale, [], some ⟨[[("a", Value.null)]], "q", 0⟩) := by decide

/-- C4 (amended): for every CreatePlot call whose chart-type tag (the first
`|`-segment, stripped and lowercased) is not in the allow-list, issued when
the cache slot is non-empty and fresh, the call returns the
unknown-chart-type error and writes no file; the no-data and staleness checks
precede the allow-list check. -/
theorem create_plot_rejects_unknown_type (allowed : List String) (slot : Slot)
    (now : Int) (saveOk : Bool) (req p0 : String) (rest : List String)
    (hparts : pySplit '|' req = p0 :: rest)
    (hpt : allowed.contains (pyLower (pyStrip p0)) = false)
    (hdata : slot.data ≠ []) (hfresh : ¬ now - slot.timestamp > 120) :
    create_plot_tool allowed (some slot) now saveOk req =
      (.notAllowed (pyLower (pyStrip p0)), [], some slot) := by
  have hd : slot.data.isEmpty = false := isEmpty_false_of_ne_nil hdata
  have hni : pyLower (pyStrip p0) ∉ allowed := by
    simp at hpt
    exact hpt
  simp [create_plot_tool, hd, hfresh, hparts, hpt, hni]

/-- Witness for the amended C4 at a concrete fresh slot and a bad chart type. -/
theorem create_plot_rejects_unknown_type_witness :
    pySplit '|' "mosaic|x_column=a" = ["mosaic", "x_column=a"] ∧
    (["volcano"].contains (pyLower (pyStrip "mosaic")) = false) ∧
    (([[("a", Value.null)]] : List Row) ≠ []) ∧ (¬ (10 : Int) - 0 > 120) ∧
    create_plot_tool ["volcano"] (some ⟨[[("a", Value.null)]], "q", 0⟩) 10 true
        "mosaic|x_column=a" =
      (.notAllowed (pyLower (pyStrip "mosaic")), [], some ⟨[[("a", Value.null)]], "q", 0⟩) :=
  ⟨by decide, by decide, by decide, by decide,
    create_plot_rejects_unknown_type ["volcano"] ⟨[[("a", Value.null)]], "q", 0⟩ 10 true
      "mosaic|x_column=a" "mosaic" ["x_column=a"] (by decide) (by decide) (by decide)
      (by decide)⟩

/-- Significance label characterisation: "Significant" exactly when the value
coerces to a number strictly below 0.05 (as a rational). -/
theorem volcanoLabel_significant_iff (v : Value) :
    volcanoLabel v = "Significant" ↔ ∃ d, pdToNumeric v = some d ∧ d.toRat < 5 / 100 := by
  unfold volcanoLabel
  cases h : pdToNumeric v with
  | none => simp
  | some d =>
    have h52 : (Dec.mk 5 2).toRat = 5 / 100 := by norm_num [Dec.toRat]
    by_cases hb : d.blt ⟨5, 2⟩ = true
    · simp only [hb, if_true]
      constructor
      · intro _
        exact ⟨d, rfl, h52 ▸ (Dec.blt_iff_toRat d ⟨5, 2⟩).mp hb⟩
      · intro _
        trivial
    · simp only [Bool.not_eq_true] at hb
      simp only [hb, Bool.false_eq_true, if_false]
      constructor
      · intro hcontra
        exact absurd hcontra (by decide)
      · rintro ⟨d', hd', hlt⟩
        injection hd' with hdd
        subst hdd
        rw [(Dec.blt_iff_toRat d ⟨5, 2⟩).mpr (h52 ▸ hlt)] at hb
        exact absurd hb (by decide)

/-- C6: a volcano rendering built by `_create_plot` over a frame whose column
set contains the requested y column assigns each row the label "Significant"
exactly when the row's y value coerces to a number strictly below 0.05 (and
"Not Significant" otherwise), uses the derived column as the color encoding,
and the labelling is the same for every parameter set selecting that y column
— the 0.05 threshold is fixed and not settable by any parameter. -/
theorem volcano_threshold_fixed (df : DF) (plot_params : List (String × String)) (y : String)
    (hy : List.lookup "y_column" plot_params = some y)
    (hcol : df.cols.contains y = true) :
    (createPlotFig "volcano" df plot_params).map Fig.color = some (some "significant") ∧
    (createPlotFig "volcano" df plot_params).map (fun f => f.frame.rows) =
      some (df.rows.map (fun r =>
        rowSet r "significant" (Value.str (volcanoLabel (rowGet r y))))) ∧
    (∀ v : Value, volcanoLabel v = "Significant" ↔
      ∃ d, pdToNumeric v = some d ∧ d.toRat < 5 / 100) ∧
    (∀ v : Value, volcanoLabel v = "Significant" ∨ volcanoLabel v = "Not Significant") ∧
    (∀ plot_params' : List (String × String),
      List.lookup "y_column" plot_params' = some y →
      (createPlotFig "volcano" df plot_params').map (fun f => f.frame.rows) =
        (createPlotFig "volcano" df plot_params).map (fun f => f.frame.rows)) := by
  have hmem : y ∈ df.cols := by simpa using hcol
  have hred : ∀ pp : List (String × String), List.lookup "y_column" pp = some y →
      createPlotFig "volcano" df pp =
        some ⟨⟨if df.cols.contains "significant" then df.cols else df.cols ++ ["significant"],
               df.rows.map (fun r =>
                 rowSet r "significant" (Value.str (volcanoLabel (rowGet r y))))⟩,
          List.lookup "x_column" pp, some y, some "significant", none,
          (List.lookup "title" pp).getD "Volcano Plot"⟩ := by
    intro pp hpp
    simp [createPlotFig, hpp, hcol, hmem]
  refine ⟨?_, ?_, volcanoLabel_significant_iff, ?_, ?_⟩
  · rw [hred plot_params hy]
    rfl
  · rw [hred plot_params hy]
    rfl
  · intro v
    unfold volcanoLabel
    cases pdToNumeric v with
    | none => right; rfl
    | some d =>
      by_cases hb : d.blt ⟨5, 2⟩ = true
      · left
        simp [hb]
      · right
        simp only [Bool.not_eq_true] at hb
        simp [hb]
  · intro pp' hpp'
    rw [hred pp' hpp', hred plot_params hy]
    rfl

/-- Witness for C6 over a concrete two-row frame (one significant row at
0.01, one not at 0.05). -/
theorem volcano_threshold_fixed_witness :
    (List.lookup "y_column" [("y_column", "padj")] = some "padj") ∧
    ((pdDataFrame [[("padj", Value.str "0.01")], [("padj", Value.str "0.05")]]).cols.contains
        "padj" = true) ∧
    (createPlotFig "volcano" (pdDataFrame [[("padj", Value.str "0.01")], [("padj", Value.str "0.05")]])
        [("y_column", "padj")]).map (fun f => f.frame.rows) =
      some ((pdDataFrame [[("padj", Value.str "0.01")], [("padj", Value.str "0.05")]]).rows.map
        (fun r => rowSet r "significant" (Value.str (volcanoLabel (rowGet r "padj"))))) :=
  ⟨rfl, by decide,
    (volcano_threshold_fixed (pdDataFrame [[("padj", Value.str "0.01")], [("padj", Value.str "0.05")]])
      [("y_column", "padj")] "padj" rfl (by decide)).2.1⟩

/-- The report exporter never assigns the cache global, whatever branch it
takes. -/
theorem create_csv_report_tool_cache_eq (cache : Cache) (now : Int)
    (toCsv : Except String Unit) :
    (create_csv_report_tool cache now toCsv).2.2 = cache := by
  cases cache with
  | none => rfl
  | some slot =>
    simp only [create_csv_report_tool]
    split
    · rfl
    · split
      · rfl
      · cases toCsv <;> rfl

/-- The plot tool never assigns the cache global, whatever branch it takes. -/
theorem create_plot_tool_cache_eq (allowed : List String) (cache : Cache) (now : Int)
    (saveOk : Bool) (req : String) :
    (create_plot_tool allowed cache now saveOk req).2.2 = cache := by
  cases cache with
  | none => rfl
  | some slot =>
    simp only [create_plot_tool]
    repeat' split
    all_goals rfl

/-- C7: the cache slot is mutated only by a successful query execution
returning at least one row — a failed execution or a successful zero-row
execution leaves the slot unchanged — and the chart renderer and report
exporter only read the slot, never mutate it. -/
theorem cache_mutation_frame :
    (∀ (store : Store) (q : String) (cache : Cache) (now : Int) (e : String),
        execute_query true store q = .error e →
        (sql_query_tool true store q cache now).2 = cache) ∧
    (∀ (store : Store) (q : String) (cache : Cache) (now : Int) (cols : List String),
        execute_query true store q = .ok ⟨[], cols⟩ →
        (sql_query_tool true store q cache now).2 = cache) ∧
    (∀ (cache : Cache) (now : Int) (toCsv : Except String Unit),
        (create_csv_report_tool cache now toCsv).2.2 = cache) ∧
    (∀ (allowed : List String) (cache : Cache) (now : Int) (saveOk : Bool) (req : String),
        (create_plot_tool allowed cache now saveOk req).2.2 = cache) := by
  refine ⟨?_, ?_, create_csv_report_tool_cache_eq, create_plot_tool_cache_eq⟩
  · intro store q cache now e h
    simp [sql_query_tool, h]
  · intro store q cache now cols h
    simp [sql_query_tool, h]

/-- Witness for C7: a failing query, a zero-row query, a report call and a
plot call, each leaving a concrete prior slot untouched. -/
theorem cache_mutation_frame_witness :
    (execute_query true (fun _ => Except.error "boom") "SELECT 1" =
        Except.error "Query execution failed: boom") ∧
    (execute_query true (fun _ => Except.ok ([], ["c"])) "SELECT 1" =
        Except.ok ⟨[], ["c"]⟩) ∧
    (sql_query_tool true (fun _ => Except.error "boom") "SELECT 1"
        (some ⟨[[("a", Value.null)]], "q", 3⟩) 9).2 = some ⟨[[("a", Value.null)]], "q", 3⟩ ∧
    (sql_query_tool true (fun _ => Except.ok ([], ["c"])) "SELECT 1"
        (some ⟨[[("a", Value.null)]], "q", 3⟩) 9).2 = some ⟨[[("a", Value.null)]], "q", 3⟩ ∧
    (create_csv_report_tool (some ⟨[[("a", Value.null)]], "q", 3⟩) 9 (.ok ())).2.2 =
      some ⟨[[("a", Value.null)]], "q", 3⟩ ∧
    (create_plot_tool ["volcano"] (some ⟨[[("a", Value.null)]], "q", 3⟩) 9 true
        "volcano|y_column=a").2.2 = some ⟨[[("a", Value.null)]], "q", 3⟩ :=
  ⟨rfl, rfl,
    cache_mutation_frame.1 (fun _ => Except.error "boom") "SELECT 1"
      (some ⟨[[("a", Value.null)]], "q", 3⟩) 9 "Query execution failed: boom" rfl,
    cache_mutation_frame.2.1 (fun _ => Except.ok ([], ["c"])) "SELECT 1"
      (some ⟨[[("a", Value.null)]], "q", 3⟩) 9 ["c"] rfl,
    cache_mutation_frame.2.2.1 (some ⟨[[("a", Value.null)]], "q", 3⟩) 9 (.ok ()),
    cache_mutation_frame.2.2.2 ["volcano"] (some ⟨[[("a", Value.null)]], "q", 3⟩) 9 true
      "volcano|y_column=a"⟩

/-- The Python character-level split never returns an empty list. -/
theorem pySplitChars_ne_nil (sep : Char) (cs : List Char) : pySplitChars sep cs ≠ [] := by
  cases cs with
  | nil => simp [pySplitChars]
  | cons c cs' =>
    simp only [pySplitChars]
    split
    · simp
    · split <;> simp

/-- Python `str.split` never returns an empty list. -/
theorem pySplit_ne_nil (sep : Char) (s : String) : pySplit sep s ≠ [] := by
  unfold pySplit
  intro h
  exact pySplitChars_ne_nil sep s.data (by simpa using h)

/-- C10: splitting any CreatePlot request on the pipe separator yields at
least one segment, so the "Invalid plot request format" branch of
`create_plot_tool`, guarded by an emptiness check on the split result, is
unreachable: no input ever produces that error. -/
theorem create_plot_invalid_format_unreachable :
    (∀ s : String, pySplit '|' s ≠ []) ∧
    ∀ (allowed : List String) (cache : Cache) (now : Int) (saveOk : Bool) (req : String),
      (create_plot_tool allowed cache now saveOk req).1 ≠ PlotOut.invalidFormat := by
  refine ⟨pySplit_ne_nil '|', ?_⟩
  intro allowed cache now saveOk req
  cases cache with
  | none => simp [create_plot_tool]
  | some slot =>
    simp only [create_plot_tool]
    split
    · simp
    · split
      · simp
      · split
        · next heq => exact absurd heq (pySplit_ne_nil '|' req)
        · repeat' split
          all_goals simp

/-- Retry-loop unrolling: a block of attempts that all fail with a rate-limit
signal (and are not the last attempt) contributes exactly one backoff sleep
per attempt and then continues with the remaining attempts. -/
theorem invoke_go_append (agent : Nat → Except String AgentResult) (jitter : Nat → ℚ)
    (mr : Nat) (l l₂ : List Nat)
    (h : ∀ a ∈ l, (∃ e, agent a = .error e ∧ isRateLimitSignal e = true) ∧ a < mr - 1) :
    invoke_with_retry_go agent jitter mr (l ++ l₂) =
      ((invoke_with_retry_go agent jitter mr l₂).1,
        l.map (fun a => backoffDelay a (jitter a)) ++
          (invoke_with_retry_go agent jitter mr l₂).2) := by
  induction l with
  | nil => simp
  | cons a l ih =>
    obtain ⟨⟨e, hae, hre⟩, hlt⟩ := h a (by simp)
    simp only [List.cons_append, invoke_with_retry_go, hae, hre, if_true, List.append_eq]
    rw [if_pos hlt, ih (fun b hb => h b (by simp [hb]))]
    simp

/-- Retry-loop congruence: the outcome depends only on the attempts whose
indices appear in the worklist. -/
theorem invoke_go_congr (agent agent' : Nat → Except String AgentResult)
    (jitter : Nat → ℚ) (mr : Nat) (l : List Nat)
    (h : ∀ a ∈ l, agent' a = agent a) :
    invoke_with_retry_go agent' jitter mr l = invoke_with_retry_go agent jitter mr l := by
  induction l with
  | nil => rfl
  | cons a l ih =>
    have ha := h a (by simp)
    simp only [invoke_with_retry_go, ha]
    cases hag : agent a with
    | ok r => rfl
    | error e =>
      by_cases hr : isRateLimitSignal e = true
      · simp only [hr, if_true]
        by_cases hlt : a < mr - 1
        · rw [if_pos hlt, if_pos hlt, ih (fun b hb => h b (by simp [hb]))]
        · rw [if_neg hlt, if_neg hlt]
      · simp only [Bool.not_eq_true] at hr
        simp [hr]

/-- C8: the retry loop around the reasoning call (with its default budget of
5 attempts) retries only on rate-limit/capacity signals — a non-rate-limit
exception at any attempt is re-raised at once with no further attempts; the
number of attempts is bounded (the outcome depends only on the first 5
attempt results); each sleep is exactly `min(2 ^ attempt + jitter, 30)`, so
every per-attempt delay is capped at 30 seconds; and when all 5 attempts fail
with rate-limit signals the call returns the well-formed degraded
capacity-exceeded answer instead of raising. -/
theorem invoke_with_retry_policy (agent : Nat → Except String AgentResult)
    (jitter : Nat → ℚ) :
    ((∀ k, k < 5 → ∃ e, agent k = .error e ∧ isRateLimitSignal e = true) →
      invoke_with_retry agent jitter 5 =
        (some (.ok capacityFallback),
          [backoffDelay 0 (jitter 0), backoffDelay 1 (jitter 1),
            backoffDelay 2 (jitter 2), backoffDelay 3 (jitter 3)])) ∧
    (∀ k, k < 5 → ∀ e, agent k = .error e → isRateLimitSignal e = false →
      (∀ i, i < k → ∃ ei, agent i = .error ei ∧ isRateLimitSignal ei = true) →
      invoke_with_retry agent jitter 5 =
        (some (.error e), (List.range k).map (fun i => backoffDelay i (jitter i)))) ∧
    (∀ i, backoffDelay i (jitter i) ≤ 30) ∧
    (∀ agent' : Nat → Except String AgentResult, (∀ k, k < 5 → agent' k = agent k) →
      invoke_with_retry agent' jitter 5 = invoke_with_retry agent jitter 5) := by
  refine ⟨?_, ?_, fun i => min_le_right _ _, ?_⟩
  · intro h
    obtain ⟨e4, h4, hr4⟩ := h 4 (by norm_num)
    have hpre : ∀ a ∈ [0, 1, 2, 3],
        (∃ e, agent a = .error e ∧ isRateLimitSignal e = true) ∧ a < 5 - 1 := by
      intro a ha
      fin_cases ha <;> exact ⟨h _ (by norm_num), by norm_num⟩
    have hrange : List.range 5 = [0, 1, 2, 3] ++ [4] := rfl
    unfold invoke_with_retry
    rw [hrange, invoke_go_append agent jitter 5 [0, 1, 2, 3] [4] hpre]
    simp [invoke_with_retry_go, h4, hr4]
  · intro k hk e hke hre hprev
    have hpre : ∀ l : List Nat, (∀ a ∈ l, a < k) →
        ∀ a ∈ l, (∃ e, agent a = .error e ∧ isRateLimitSignal e = true) ∧ a < 5 - 1 := by
      intro l hl a ha
      have hak := hl a ha
      exact ⟨hprev a hak, by omega⟩
    have hstep : invoke_with_retry_go agent jitter 5 (k :: (List.range (4 - k)).map
        (fun i => k + 1 + i)) = (some (.error e), []) := by
      simp [invoke_with_retry_go, hke, hre]
    interval_cases k
    · have hrange : List.range 5 = ([] : List Nat) ++
          (0 :: (List.range (4 - 0)).map (fun i => 0 + 1 + i)) := rfl
      unfold invoke_with_retry
      rw [hrange, invoke_go_append agent jitter 5 _ _
        (hpre [] (by intro a ha; cases ha)), hstep]
      rfl
    · have hrange : List.range 5 = [0] ++
          (1 :: (List.range (4 - 1)).map (fun i => 1 + 1 + i)) := rfl
      unfold invoke_with_retry
      rw [hrange, invoke_go_append agent jitter 5 _ _
        (hpre [0] (by intro a ha; fin_cases ha; norm_num)), hstep]
      rfl
    · have hrange : List.range 5 = [0, 1] ++
          (2 :: (List.range (4 - 2)).map (fun i => 2 + 1 + i)) := rfl
      unfold invoke_with_retry
      rw [hrange, invoke_go_append agent jitter 5 _ _
        (hpre [0, 1] (by intro a ha; fin_cases ha <;> norm_num)), hstep]
      rfl
    · have hrange : List.range 5 = [0, 1, 2] ++
          (3 :: (List.range (4 - 3)).map (fun i => 3 + 1 + i)) := rfl
      unfold invoke_with_retry
      rw [hrange, invoke_go_append agent jitter 5 _ _
        (hpre [0, 1, 2] (by intro a ha; fin_cases ha <;> norm_num)), hstep]
      rfl
    · have hrange : List.range 5 = [0, 1, 2, 3] ++
          (4 :: (List.range (4 - 4)).map (fun i => 4 + 1 + i)) := rfl
      unfold invoke_with_retry
      rw [hrange, invoke_go_append agent jitter 5 _ _
        (hpre [0, 1, 2, 3] (by intro a ha; fin_cases ha <;> norm_num)), hstep]
      rfl
  · intro agent' h
    unfold invoke_with_retry
    exact invoke_go_congr agent agent' jitter 5 (List.range 5)
      (fun a ha => h a (by simpa using ha))

/-- Witness for C8: an agent that always reports a 429 quota error, with zero
jitter, exhausts the 5 attempts, sleeps 4 times and returns the degraded
capacity answer. -/
theorem invoke_with_retry_policy_witness :
    invoke_with_retry (fun _ => Except.error "429 quota") (fun _ => 0) 5 =
      (some (.ok capacityFallback),
        [backoffDelay 0 0, backoffDelay 1 0, backoffDelay 2 0, backoffDelay 3 0]) :=
  (invoke_with_retry_policy (fun _ => Except.error "429 quota") (fun _ => 0)).1
    (fun k _ => ⟨"429 quota", rfl, by decide⟩)

/-- The table-info loop fails with the first failing element's exception
when all elements before it succeed. -/
theorem collect_table_info_error (pragmaEx : PragmaStore) (l1 l2 : List String)
    (x : String) (e : String) (hx : pragmaEx x = .error e)
    (hok : ∀ t ∈ l1, ∃ c, pragmaEx t = .ok c) :
    collect_table_info pragmaEx (l1 ++ x :: l2) = .error e := by
  induction l1 with
  | nil => simp [collect_table_info, hx]
  | cons t ts ih =>
    obtain ⟨c, hc⟩ := hok t (by simp)
    simp [collect_table_info, hc, ih (fun t' ht' => hok t' (by simp [ht']))]

/-- A raised `PRAGMA` for one table makes the whole `get_table_info` call
fail with the aggregate error, even when every table before it is fine. -/
theorem get_table_info_error_propagates (tables1 tables2 : List String) (tbad : String)
    (pragmaEx : PragmaStore) (e : String)
    (hbad : pragmaEx tbad = .error e)
    (hok : ∀ t ∈ tables1, ∃ cols, pragmaEx t = .ok cols) :
    get_table_info true (tables1 ++ tbad :: tables2) pragmaEx =
      .error ("Failed to get table info: " ++ e) := by
  have hm := collect_table_info_error pragmaEx tables1 tables2 tbad e hbad hok
  simp [get_table_info, hm]

/-- A failing `PRAGMA` (reported as an error dict by `execute_query`) makes
`sample_column_values` skip exactly that table, leaving every other table's
samples unchanged. -/
theorem sample_values_skips_failed_table (connected : Bool) (store : Store)
    (ts1 ts2 : List String) (tbad e : String)
    (hbad : execute_query connected store ("PRAGMA table_info('" ++ tbad ++ "');") =
      .error e) :
    sample_column_values_core connected store (ts1 ++ tbad :: ts2) =
      sample_column_values_core connected store (ts1 ++ ts2) := by
  have hskip : sample_values_for_table connected store tbad = [] := by
    unfold sample_values_for_table
    rw [hbad]
  unfold sample_column_values_core
  simp [hskip]

/-- C9 counterexample: with two tables of which the second raises on its
`PRAGMA`, `get_table_info` (the DescribeSchema backend) fails wholesale with
an error instead of skipping the bad table, although the same oracle handles
the first table fine on its own. -/
theorem get_table_info_fails_wholesale :
    get_table_info true ["genes", "bad table"]
        (fun t => if t == "genes" then .ok [("gene_name", "TEXT")]
                  else .error "unrecognized token") =
      Except.error "Failed to get table info: unrecognized token" ∧
    get_table_info true ["genes"]
        (fun t => if t == "genes" then .ok [("gene_name", "TEXT")]
                  else .error "unrecognized token") =
      Except.ok [("genes", ⟨[("gene_name", "TEXT")], "SELECT * FROM genes LIMIT 5;"⟩)] :=
  ⟨rfl, rfl⟩

/-- C9 (amended): per-table failure isolation holds for the SampleValues
tool — a failing table is skipped and every other table's samples are
unaffected — but not for DescribeSchema: there a single raised `PRAGMA`
aborts the aggregate call with an error. -/
theorem introspection_failure_scoping :
    (∀ (connected : Bool) (store : Store) (ts1 ts2 : List String) (tbad e : String),
        execute_query connected store ("PRAGMA table_info('" ++ tbad ++ "');") = .error e →
        sample_column_values_core connected store (ts1 ++ tbad :: ts2) =
          sample_column_values_core connected store (ts1 ++ ts2)) ∧
    (∀ (tables1 tables2 : List String) (tbad : String) (pragmaEx : PragmaStore) (e : String),
        pragmaEx tbad = .error e →
        (∀ t ∈ tables1, ∃ cols, pragmaEx t = .ok cols) →
        get_table_info true (tables1 ++ tbad :: tables2) pragmaEx =
          .error ("Failed to get table info: " ++ e)) :=
  ⟨sample_values_skips_failed_table, get_table_info_error_propagates⟩

/-- Witness for the amended C9 at a concrete store: table t1 samples fine,
table t2's `PRAGMA` fails and is skipped by SampleValues, while the same
shape of failure aborts DescribeSchema. -/
theorem introspection_failure_scoping_witness :
    (execute_query true
        (fun q => if q == "PRAGMA table_info('t2');" then Except.error "no such table: t2"
          else if q == "PRAGMA table_info('t1');" then
            Except.ok ([[("name", Value.str "c"), ("type", Value.str "TEXT")]], [])
          else if q == "SELECT DISTINCT \"c\" FROM \"t1\" LIMIT 5;" then
            Except.ok ([[("c", Value.str "v1")]], [])
          else Except.error "x")
        "PRAGMA table_info('t2');" = Except.error "Query execution failed: no such table: t2") ∧
    sample_column_values_core true
        (fun q => if q == "PRAGMA table_info('t2');" then Except.error "no such table: t2"
          else if q == "PRAGMA table_info('t1');" then
            Except.ok ([[("name", Value.str "c"), ("type", Value.str "TEXT")]], [])
          else if q == "SELECT DISTINCT \"c\" FROM \"t1\" LIMIT 5;" then
            Except.ok ([[("c", Value.str "v1")]], [])
          else Except.error "x")
        (["t1"] ++ "t2" :: []) =
      sample_column_values_core true
        (fun q => if q == "PRAGMA table_info('t2');" then Except.error "no such table: t2"
          else if q == "PRAGMA table_info('t1');" then
            Except.ok ([[("name", Value.str "c"), ("type", Value.str "TEXT")]], [])
          else if q == "SELECT DISTINCT \"c\" FROM \"t1\" LIMIT 5;" then
            Except.ok ([[("c", Value.str "v1")]], [])
          else Except.error "x")
        (["t1"] ++ []) ∧
    get_table_info true (["t1"] ++ "t2" :: [])
        (fun t => if t == "t1" then Except.ok [("c", "TEXT")] else Except.error "boom") =
      Except.error "Failed to get table info: boom" :=
  ⟨rfl,
    introspection_failure_scoping.1 true
      (fun q => if q == "PRAGMA table_info('t2');" then Except.error "no such table: t2"
        else if q == "PRAGMA table_info('t1');" then
          Except.ok ([[("name", Value.str "c"), ("type", Value.str "TEXT")]], [])
        else if q == "SELECT DISTINCT \"c\" FROM \"t1\" LIMIT 5;" then
          Except.ok ([[("c", Value.str "v1")]], [])
        else Except.error "x")
      ["t1"] [] "t2" "Query execution failed: no such table: t2" rfl,
    introspection_failure_scoping.2 ["t1"] [] "t2"
      (fun t => if t == "t1" then Except.ok [("c", "TEXT")] else Except.error "boom") "boom"
      rfl
      (by
        intro t ht
        simp only [List.mem_singleton] at ht
        subst ht
        exact ⟨[("c", "TEXT")], rfl⟩)⟩
